import Mathlib

/-!
Verification of the documentation deployment utility
(`scripts/github/deploy_pages.py`).

The program is a sequential orchestrator of external processes.  We embed
it shallowly: the filesystem is a map from path strings to file contents,
every external-process outcome (git queries, the documentation builder,
the interactive prompt) is an oracle recorded in a `World` value, and each
Python function of the source becomes a Lean function from the `World` to
a trace of observable events together with a control-flow outcome
(normal return, `sys.exit code`, or an uncaught Python exception).

Python string operations used by the source (`strip`, `lower`, `split`,
`replace`, `endswith`, the substring test `in`) are modelled on
`List Char` with Python semantics.

Path strings are written relative to the repository root that contains
the program at `scripts/github/deploy_pages.py`; `Path(__file__).parent`
is therefore the symbolic path `scripts/github`, and the source's
`script_dir / ".." / ".."` is kept un-normalised, exactly as `pathlib`
keeps it.  `Path(".") / x` is `x`, as `pathlib` drops a leading `.`.
-/

namespace DeployPages

/-! ### Python string primitives -/

/-- Characters treated as whitespace by Python `str.strip()` (ASCII part;
the git output handled by the program is ASCII). -/
def isPySpace (c : Char) : Bool :=
  c = ' ' || c = '\t' || c = '\n' || c = '\r' || c = '\x0b' || c = '\x0c'

/-- Python `str.strip()` on a character list. -/
def pyStripList (l : List Char) : List Char :=
  ((l.dropWhile isPySpace).reverse.dropWhile isPySpace).reverse

/-- Python `str.strip()`. -/
def pyStrip (s : String) : String := String.mk (pyStripList s.data)

/-- Python `str.lower()` (ASCII part; the prompt answer compared by the
program is the single letter y). -/
def pyLower (s : String) : String := String.mk (s.data.map Char.toLower)

/-- First occurrence of `sep` in `l`: returns the part before the first
occurrence and the part after it, or `none` when `sep` does not occur.
All separators passed by the program are nonempty. -/
def splitFirst (sep : List Char) : List Char → Option (List Char × List Char)
  | [] => none
  | c :: rest =>
    if sep.isPrefixOf (c :: rest) then some ([], (c :: rest).drop sep.length)
    else
      match splitFirst sep rest with
      | some (a, b) => some (c :: a, b)
      | none => none

/-- Python `s.split(sep)[1]`, used by the source under the guard that
`sep` occurs in `s`: the segment between the first and the second
occurrence of `sep`, or everything after the sole occurrence.  Returns
`[]` when `sep` does not occur at all (unreachable under the guard). -/
def pyIndex1 (sep l : List Char) : List Char :=
  match splitFirst sep l with
  | none => []
  | some (_, b) =>
    match splitFirst sep b with
    | none => b
    | some (a, _) => a

/-- Python `s[:-4] if s.endswith(".git") else s`. -/
def stripDotGit (l : List Char) : List Char :=
  if (".git".data).isSuffixOf l then l.take (l.length - 4) else l

/-- Python `s.replace(":", "/")` (single-character pattern, hence a map). -/
def colonToSlash (l : List Char) : List Char :=
  l.map (fun c => if c = ':' then '/' else c)

/-! ### Filesystem, oracles, events and control flow -/

/-- The filesystem: path strings to file contents.  `none` means the path
does not exist. -/
def FS := String → Option String

/-- Existence check, as `pathlib.Path.exists`. -/
def FS.existsFile (fs : FS) (p : String) : Bool := (fs p).isSome

/-- Functional update of the filesystem at one path, as a completed
`shutil.copy2` (content written to the destination path). -/
def FS.write (fs : FS) (p : String) (c : String) : FS :=
  fun q => if q = p then some c else fs q

/-- Outcome of one external process invocation. -/
inductive ProcResult
  | success
  | failure
  | interrupt
  deriving DecidableEq

/-- Python exceptions that the program can leave uncaught or catch. -/
inductive Exn
  | calledProcessError
  | keyboardInterrupt
  | valueError
  deriving DecidableEq

/-- Control-flow outcome of a modelled Python function: normal return,
`sys.exit code`, or a raised exception propagating out of the function. -/
inductive Ctl
  | ok
  | exit (code : Nat)
  | raise (e : Exn)
  deriving DecidableEq

/-- Observable events of a run, in order: labeled diagnostics, plain
printed lines, environment-mode computations (each call of
`has_uv_project`), working-directory changes, external-process
invocations, and completed file copies. -/
inductive Event
  | info (msg : String)
  | warn (msg : String)
  | err (msg : String)
  | outLine (msg : String)
  | modeQuery (b : Bool)
  | chdir (dir : String)
  | runGitStatus
  | runGitConfigRemote
  | runMkdocs (viaUv : Bool) (args : List String)
  | copyFile (src tgt : String)
  deriving DecidableEq

/-- External inputs of one program invocation: the filesystem at start,
whether the builder is on the PATH (`shutil.which`), the result of the
git status query (`none` models a `CalledProcessError`), the operator
answer to the confirmation prompt, a success oracle for file copies, the
results of the four builder invocations, and the remote-address query
result (`none` models a `CalledProcessError`). -/
structure World where
  fs : FS
  mkdocsOnPath : Bool
  gitStatus : Option String
  promptResponse : String
  copyOk : String → Bool
  validateBuildOk : Bool
  publishResult : ProcResult
  serveResult : ProcResult
  buildResult : ProcResult
  remoteUrl : Option String

/-! ### Fixed paths used by the program -/

/-- Symbolic `Path(__file__).parent`. -/
def scriptDirPath : String := "scripts/github"

/-- Marker file `script_dir / "pyproject.toml"`. -/
def pyprojectPath : String := "scripts/github/pyproject.toml"

/-- Marker file `script_dir / "uv.lock"`. -/
def uvLockPath : String := "scripts/github/uv.lock"

/-- Project root `script_dir / ".." / ".."` used in uv mode. -/
def uvRootPath : String := "scripts/github/../.."

/-- Configuration file path checked in uv mode. -/
def uvConfigPath : String := "scripts/github/../../mkdocs.yml"

/-- Configuration file path checked in global mode. -/
def globalConfigPath : String := "mkdocs.yml"

/-- Configuration file path for the detected mode. -/
def configPath (m : Bool) : String := if m then uvConfigPath else globalConfigPath

/-- Configuration-file argument string passed to the builder. -/
def configArg (m : Bool) : String := if m then "../../mkdocs.yml" else "mkdocs.yml"

/-- Source path of the changelog for the detected mode. -/
def srcChangelog (m : Bool) : String :=
  if m then "scripts/github/../../CHANGELOG.md" else "CHANGELOG.md"

/-- Source path of the contributing guide for the detected mode. -/
def srcContrib (m : Bool) : String :=
  if m then "scripts/github/../../.github/CONTRIBUTING.md" else ".github/CONTRIBUTING.md"

/-- Destination path of the staged changelog for the detected mode. -/
def dstChangelog (m : Bool) : String :=
  if m then "scripts/github/../../docs/changelog.md" else "docs/changelog.md"

/-- Destination path of the staged contributing guide for the detected mode. -/
def dstContrib (m : Bool) : String :=
  if m then "scripts/github/../../docs/contributing.md" else "docs/contributing.md"

/-! ### The program -/

/-- Source `has_uv_project`: both marker files exist next to the program. -/
def has_uv_project (fs : FS) : Bool :=
  FS.existsFile fs pyprojectPath && FS.existsFile fs uvLockPath

/-- Source `run_mkdocs`: recomputes the environment mode, changes
directory and wraps with `uv run` in uv mode, and runs the builder with
`check=True`, so a failing process raises `CalledProcessError` and an
operator interrupt raises `KeyboardInterrupt`. -/
def run_mkdocs (mode : Bool) (args : List String) (res : ProcResult) : List Event × Ctl :=
  ([Event.modeQuery mode] ++ (if mode then [Event.chdir scriptDirPath] else [])
    ++ [Event.runMkdocs mode args],
   match res with
   | ProcResult.success => Ctl.ok
   | ProcResult.failure => Ctl.raise Exn.calledProcessError
   | ProcResult.interrupt => Ctl.raise Exn.keyboardInterrupt)

/-- One iteration of the staging loop of `copy_required_files`: copy
`src` to `dst` when the source exists, warning instead of raising when it
is missing or when the copy itself fails. -/
def copyStep (cok : String → Bool) (fs : FS) (src dst : String) : List Event × FS :=
  if FS.existsFile fs src then
    if cok src then
      ([Event.copyFile src dst, Event.info ("Copied " ++ src ++ " to " ++ dst)],
       FS.write fs dst ((fs src).getD ""))
    else
      ([Event.warn ("Failed to copy " ++ src)], fs)
  else
    ([Event.warn ("Source file not found: " ++ src)], fs)

/-- Source `copy_required_files`: stages the changelog and the
contributing guide into the `docs` directory of the project root for the
detected mode.  Every failure is caught inside the loop, so the function
always returns normally. -/
def copy_required_files (cok : String → Bool) (fs : FS) : List Event × FS :=
  let mode := has_uv_project fs
  let s1 := copyStep cok fs (srcChangelog mode) (dstChangelog mode)
  let s2 := copyStep cok s1.2 (srcContrib mode) (dstContrib mode)
  ([Event.info "Copying required files to docs directory...", Event.modeQuery mode]
    ++ s1.1 ++ s2.1, s2.2)

/-- Source `check_git_status`: queries `git status --porcelain`; a failed
query is caught and only warned about; with non-blank output the operator
is prompted, and any answer other than y (case-insensitively) terminates
the program with `sys.exit(0)`. -/
def check_git_status (w : World) : List Event × Ctl :=
  let mode := has_uv_project w.fs
  let pre := [Event.modeQuery mode] ++ (if mode then [Event.chdir uvRootPath] else [])
  match w.gitStatus with
  | none => (pre ++ [Event.runGitStatus, Event.warn "Could not check git status"], Ctl.ok)
  | some out =>
    if pyStrip out = "" then
      (pre ++ [Event.runGitStatus], Ctl.ok)
    else if pyLower w.promptResponse = "y" then
      (pre ++ [Event.runGitStatus,
        Event.warn "You have uncommitted changes. It is recommended to commit them before deploying docs."],
       Ctl.ok)
    else
      (pre ++ [Event.runGitStatus,
        Event.warn "You have uncommitted changes. It is recommended to commit them before deploying docs.",
        Event.info "Deployment cancelled."],
       Ctl.exit 0)

/-- Source `validate_mkdocs_config`: exits with code 1 when the
configuration file is absent, otherwise runs a strict quiet trial build
and exits with code 1 when it fails. -/
def validate_mkdocs_config (w : World) : List Event × Ctl :=
  let mode := has_uv_project w.fs
  let pre := [Event.info "Validating MkDocs configuration...", Event.modeQuery mode]
  if FS.existsFile w.fs (configPath mode) then
    let runEvs := [Event.modeQuery mode] ++ (if mode then [Event.chdir scriptDirPath] else [])
      ++ [Event.runMkdocs mode ["build", "--strict", "--quiet", "--config-file", configArg mode]]
    if w.validateBuildOk then
      (pre ++ runEvs ++ [Event.info "MkDocs configuration is valid"], Ctl.ok)
    else
      (pre ++ runEvs ++ [Event.err "MkDocs build failed. Please fix configuration errors."],
       Ctl.exit 1)
  else
    (pre ++ [Event.err ("mkdocs.yml not found at " ++ configPath mode)], Ctl.exit 1)

/-- URL derivation step of `deploy_docs`, applied to the stripped output
of the remote-address query.  Faithful to the source: requires the
substring `github.com`, strips a trailing `.git`, requires the substring
`github.com/`, takes the segment after it, normalises colons to slashes,
and unpacks `split("/", 1)` into account and repository, which raises an
uncaught `ValueError` when the segment has no slash. -/
def deriveGithubPagesUrl (repoUrl : String) : Except Exn (Option String) :=
  let u := repoUrl.data
  if (splitFirst ("github.com".data) u).isSome then
    let repoPath := stripDotGit u
    if (splitFirst ("github.com/".data) repoPath).isSome then
      let userRepo := colonToSlash (pyIndex1 ("github.com/".data) repoPath)
      match splitFirst ("/".data) userRepo with
      | some (user, repo) =>
        Except.ok (some ("https://" ++ String.mk user ++ ".github.io/" ++ String.mk repo ++ "/"))
      | none => Except.error Exn.valueError
    else
      Except.ok none
  else
    Except.ok none

/-- Argument list of the publish invocation. -/
def deployArgs (m : Bool) : List String :=
  ["gh-deploy", "--clean", "--message", "Deploy documentation for commit {sha}",
   "--config-file", configArg m]

/-- Closing notice of a successful deploy. -/
def delayNotice : String :=
  "Note: It may take a few minutes for changes to appear on GitHub Pages."

/-- Source `deploy_docs`: stages files, publishes with clean-before-publish
semantics, and on success reports the public URL derived from the remote
origin address.  A failed publish is caught and converted to exit code 1;
a failed remote-address query is caught and silently skipped; a
`ValueError` from URL parsing propagates uncaught. -/
def deploy_docs (w : World) : List Event × Ctl :=
  let staged := copy_required_files w.copyOk w.fs
  let fs1 := staged.2
  let mode := has_uv_project fs1
  let pre := [Event.info "Building and deploying documentation to GitHub Pages..."]
    ++ staged.1 ++ [Event.modeQuery mode]
  let run := run_mkdocs mode (deployArgs mode) w.publishResult
  match run.2 with
  | Ctl.ok =>
    let succ := [Event.info "Documentation deployed successfully!",
                 Event.info "Your documentation will be available at:"]
    match w.remoteUrl with
    | none =>
      (pre ++ run.1 ++ succ ++ [Event.runGitConfigRemote, Event.info delayNotice], Ctl.ok)
    | some raw =>
      match deriveGithubPagesUrl (pyStrip raw) with
      | Except.error e =>
        (pre ++ run.1 ++ succ ++ [Event.runGitConfigRemote], Ctl.raise e)
      | Except.ok none =>
        (pre ++ run.1 ++ succ ++ [Event.runGitConfigRemote, Event.info delayNotice], Ctl.ok)
      | Except.ok (some url) =>
        (pre ++ run.1 ++ succ
          ++ [Event.runGitConfigRemote, Event.outLine ("  " ++ url), Event.info delayNotice],
         Ctl.ok)
  | Ctl.raise Exn.calledProcessError =>
    (pre ++ run.1 ++ [Event.err "Deployment failed!"], Ctl.exit 1)
  | c => (pre ++ run.1, c)

/-- Source `serve_docs`: runs the builder in serve mode; only an operator
interrupt is caught (and reported as a clean stop), so a failing builder
process raises an uncaught `CalledProcessError`. -/
def serve_docs (w : World) : List Event × Ctl :=
  let mode := has_uv_project w.fs
  let pre := [Event.info "Starting local documentation server...",
              Event.info "Documentation will be available at: http://127.0.0.1:8000",
              Event.info "Press Ctrl+C to stop the server",
              Event.modeQuery mode]
  let run := run_mkdocs mode ["serve", "--config-file", configArg mode] w.serveResult
  match run.2 with
  | Ctl.raise Exn.keyboardInterrupt => (pre ++ run.1 ++ [Event.info "Server stopped."], Ctl.ok)
  | c => (pre ++ run.1, c)

/-- Source `build_docs`: stages files, validates the configuration, then
runs a plain build; a failed build is caught and converted to exit code 1. -/
def build_docs (w : World) : List Event × Ctl :=
  let staged := copy_required_files w.copyOk w.fs
  let fs1 := staged.2
  let w1 : World := { w with fs := fs1 }
  let v := validate_mkdocs_config w1
  match v.2 with
  | Ctl.ok =>
    let mode := has_uv_project fs1
    let run := run_mkdocs mode ["build", "--config-file", configArg mode] w.buildResult
    match run.2 with
    | Ctl.ok =>
      (staged.1 ++ v.1 ++ [Event.modeQuery mode] ++ run.1
        ++ [Event.info "Documentation built in site/ directory"], Ctl.ok)
    | Ctl.raise Exn.calledProcessError =>
      (staged.1 ++ v.1 ++ [Event.modeQuery mode] ++ run.1 ++ [Event.err "Build failed!"],
       Ctl.exit 1)
    | c => (staged.1 ++ v.1 ++ [Event.modeQuery mode] ++ run.1, c)
  | c => (staged.1 ++ v.1, c)

/-- Commands accepted by the argument parser. -/
def commandChoices : List String := ["deploy", "serve", "preview", "build", "help"]

/-- The argument parser: one optional positional argument defaulting to
deploy; a value outside the enumerated choices is rejected (argparse
prints a usage error and exits with code 2 before anything else runs). -/
def parseArg : Option String → Option String
  | none => some "deploy"
  | some s => if commandChoices.contains s then some s else none

/-- Sequencing of workflow steps: the continuation runs only when the
previous step returned normally; `sys.exit` and exceptions propagate. -/
def thenDo (r : List Event × Ctl) (k : Unit → List Event × Ctl) : List Event × Ctl :=
  match r.2 with
  | Ctl.ok => let r2 := k (); (r.1 ++ r2.1, r2.2)
  | c => (r.1, c)

/-- Source `main`: parses the single argument, prints the banner, handles
help without any tooling check, verifies that the builder is invocable or
an isolated environment is present, and dispatches to the selected
workflow.  `serve` and `preview` dispatch identically. -/
def main (w : World) (arg : Option String) : List Event × Ctl :=
  match parseArg arg with
  | none => ([Event.outLine "usage error: invalid choice"], Ctl.exit 2)
  | some cmd =>
    let hdr := [Event.info "AutoMobile Documentation Deployment",
                Event.info "========================================"]
    if cmd = "help" then
      (hdr ++ [Event.outLine "usage: deploy_pages.py [-h] [command]"], Ctl.ok)
    else
      let toolEvs := if w.mkdocsOnPath then [] else [Event.modeQuery (has_uv_project w.fs)]
      if !w.mkdocsOnPath && !has_uv_project w.fs then
        (hdr ++ toolEvs
          ++ [Event.err "MkDocs not found and no uv project detected.",
              Event.err "Please run uv sync in the scripts/github directory first."],
         Ctl.exit 1)
      else if cmd = "deploy" then
        let r := thenDo (check_git_status w) (fun _ =>
          thenDo (validate_mkdocs_config w) (fun _ => deploy_docs w))
        (hdr ++ toolEvs ++ [Event.info "Deploying documentation to GitHub Pages..."] ++ r.1, r.2)
      else if cmd = "serve" || cmd = "preview" then
        let r := serve_docs w
        (hdr ++ toolEvs ++ [Event.info "Starting local documentation server for preview..."]
          ++ r.1, r.2)
      else
        let r := build_docs w
        (hdr ++ toolEvs ++ r.1, r.2)

/-! ### Event classifiers -/

/-- An event that is a side effect in the sense of the CLI claim: a file
copy, a directory change, or an external-process invocation. -/
def Event.isSideEffect : Event → Bool
  | Event.copyFile _ _ => true
  | Event.chdir _ => true
  | Event.runGitStatus => true
  | Event.runGitConfigRemote => true
  | Event.runMkdocs _ _ => true
  | _ => false

/-- An invocation of the external builder. -/
def Event.isBuilderInvocation : Event → Bool
  | Event.runMkdocs _ _ => true
  | _ => false

/-- The publish invocation (builder subcommand `gh-deploy`). -/
def Event.isPublishInvocation : Event → Bool
  | Event.runMkdocs _ ("gh-deploy" :: _) => true
  | _ => false

/-- No side-effecting event occurs in the trace. -/
def noSideEffects (evs : List Event) : Bool := evs.all (fun e => !e.isSideEffect)

/-- No builder invocation occurs in the trace. -/
def noBuilderInvocation (evs : List Event) : Bool := evs.all (fun e => !e.isBuilderInvocation)

/-- No publish invocation occurs in the trace. -/
def noPublishInvocation (evs : List Event) : Bool := evs.all (fun e => !e.isPublishInvocation)

/-- No plain printed line (in particular no URL line) occurs in the trace. -/
def noUrlLine (evs : List Event) : Bool :=
  evs.all (fun e => match e with | Event.outLine _ => false | _ => true)

/-- Every environment-mode computation in the trace produced the value `m`. -/
def modeConsistent (evs : List Event) (m : Bool) : Bool :=
  evs.all (fun e => match e with | Event.modeQuery b => b == m | _ => true)

/-! ### Sample worlds used as concrete inputs -/

/-- Filesystem with no isolated environment: a configuration file and a
changelog at the repository root. -/
def sampleGlobalFS : FS := fun p =>
  if p = globalConfigPath then some "site_name: x"
  else if p = "CHANGELOG.md" then some "# Changelog"
  else none

/-- Filesystem with the two uv marker files and a configuration file. -/
def sampleUvFS : FS := fun p =>
  if p = pyprojectPath then some "[project]"
  else if p = uvLockPath then some "lock"
  else if p = uvConfigPath then some "site_name: x"
  else none

/-- Baseline world: builder on the PATH, clean working tree, all external
invocations succeed, serve stopped by the operator. -/
def baseWorld : World where
  fs := sampleGlobalFS
  mkdocsOnPath := true
  gitStatus := some ""
  promptResponse := ""
  copyOk := fun _ => true
  validateBuildOk := true
  publishResult := ProcResult.success
  serveResult := ProcResult.interrupt
  buildResult := ProcResult.success
  remoteUrl := some "https://github.com/bob/site.git"

/-! ### Filesystem lemmas -/

theorem FS.write_apply_self (fs : FS) (p : String) (c : String) :
    FS.write fs p c p = some c := by
  simp [FS.write]

theorem FS.write_apply_ne (fs : FS) (p c : String) {q : String} (h : q ≠ p) :
    FS.write fs p c q = fs q := by
  simp [FS.write, h]

theorem FS.write_cancel {fs : FS} {p c : String} (h : fs p = some c) :
    FS.write fs p c = fs := by
  funext q
  by_cases hq : q = p
  · subst hq; simp [FS.write, h]
  · simp [FS.write, hq]

/-! ### Path disequalities

The staged destination files, the marker files, the configuration files
and the staged source files are pairwise different path strings; these
facts let the invariants survive the filesystem writes of file staging. -/

theorem marker_ne_dst (m : Bool) :
    pyprojectPath ≠ dstChangelog m ∧ pyprojectPath ≠ dstContrib m
    ∧ uvLockPath ≠ dstChangelog m ∧ uvLockPath ≠ dstContrib m := by
  cases m <;> exact ⟨by decide, by decide, by decide, by decide⟩

theorem config_ne_dst (m m' : Bool) :
    configPath m ≠ dstChangelog m' ∧ configPath m ≠ dstContrib m' := by
  cases m <;> cases m' <;> exact ⟨by decide, by decide⟩

theorem src_ne_dst (m : Bool) :
    srcChangelog m ≠ dstChangelog m ∧ srcChangelog m ≠ dstContrib m
    ∧ srcContrib m ≠ dstChangelog m ∧ srcContrib m ≠ dstContrib m
    ∧ dstChangelog m ≠ dstContrib m := by
  cases m <;> exact ⟨by decide, by decide, by decide, by decide, by decide⟩

/-! ### Staging lemmas -/

theorem copyStep_apply_ne (cok : String → Bool) (fs : FS) (src dst : String)
    {p : String} (h : p ≠ dst) : (copyStep cok fs src dst).2 p = fs p := by
  unfold copyStep
  split
  · split
    · exact FS.write_apply_ne fs dst _ h
    · rfl
  · rfl

theorem copyStep_write (cok : String → Bool) (fs : FS) (src dst : String)
    (hex : FS.existsFile fs src = true) (hok : cok src = true) :
    (copyStep cok fs src dst).2 = FS.write fs dst ((fs src).getD "") := by
  unfold copyStep
  rw [hex, hok]
  simp

theorem copyStep_noop (cok : String → Bool) (fs : FS) (src dst : String)
    (h : FS.existsFile fs src = false ∨ cok src = false) :
    (copyStep cok fs src dst).2 = fs := by
  unfold copyStep
  rcases h with h | h
  · rw [h]; simp
  · by_cases hex : FS.existsFile fs src = true
    · rw [hex, h]; simp
    · rw [Bool.not_eq_true] at hex
      rw [hex]; simp

theorem copy_required_files_apply_ne (cok : String → Bool) (fs : FS) {p : String}
    (h1 : p ≠ dstChangelog (has_uv_project fs)) (h2 : p ≠ dstContrib (has_uv_project fs)) :
    (copy_required_files cok fs).2 p = fs p := by
  unfold copy_required_files
  rw [copyStep_apply_ne _ _ _ _ h2, copyStep_apply_ne _ _ _ _ h1]

theorem has_uv_project_copy (cok : String → Bool) (fs : FS) :
    has_uv_project ((copy_required_files cok fs).2) = has_uv_project fs := by
  have h := marker_ne_dst (has_uv_project fs)
  unfold has_uv_project FS.existsFile
  rw [copy_required_files_apply_ne cok fs h.1 h.2.1,
      copy_required_files_apply_ne cok fs h.2.2.1 h.2.2.2]

/-! ### Stripping lemmas

The source decides cleanliness of the working tree by the truthiness of
`result.stdout.strip()`; the claims speak of the output containing a
non-blank line.  Since the line separator is itself whitespace, the output
contains a non-blank line exactly when it contains a non-whitespace
character, which is exactly when the stripped output is nonempty. -/

theorem all_of_all_dropWhile {p : Char → Bool} {l : List Char}
    (h : ∀ x ∈ l.dropWhile p, p x = true) : ∀ x ∈ l, p x = true := by
  intro x hx
  rw [← List.takeWhile_append_dropWhile (p := p) (l := l)] at hx
  rcases List.mem_append.mp hx with hx | hx
  · exact List.mem_takeWhile_imp hx
  · exact h x hx

theorem pyStripList_eq_nil_iff (l : List Char) :
    pyStripList l = [] ↔ ∀ c ∈ l, isPySpace c = true := by
  unfold pyStripList
  rw [List.reverse_eq_nil_iff, List.dropWhile_eq_nil_iff]
  constructor
  · intro h
    apply all_of_all_dropWhile
    intro x hx
    exact h x (by rwa [List.mem_reverse])
  · intro h x hx
    rw [List.mem_reverse] at hx
    exact h x (List.dropWhile_sublist isPySpace |>.mem hx)

theorem pyStrip_ne_empty {out : String}
    (h : out.data.any (fun c => !isPySpace c) = true) : pyStrip out ≠ "" := by
  intro hc
  have hnil : pyStripList out.data = [] := congrArg String.data hc
  rcases List.any_eq_true.mp h with ⟨c, hc1, hc2⟩
  have := (pyStripList_eq_nil_iff out.data).mp hnil c hc1
  simp [this] at hc2

/-! ### Trace-predicate distribution lemmas -/

theorem modeConsistent_append (a b : List Event) (m : Bool) :
    modeConsistent (a ++ b) m = (modeConsistent a m && modeConsistent b m) :=
  List.all_append

theorem noBuilderInvocation_append (a b : List Event) :
    noBuilderInvocation (a ++ b) = (noBuilderInvocation a && noBuilderInvocation b) :=
  List.all_append

theorem noPublishInvocation_append (a b : List Event) :
    noPublishInvocation (a ++ b) = (noPublishInvocation a && noPublishInvocation b) :=
  List.all_append

/-! ### Per-component mode-consistency lemmas -/

theorem modeConsistent_run_mkdocs (m : Bool) (args : List String) (r : ProcResult) :
    modeConsistent (run_mkdocs m args r).1 m = true := by
  unfold run_mkdocs modeConsistent
  cases m <;> simp

theorem modeConsistent_copyStep (cok : String → Bool) (fs : FS) (src dst : String) (m : Bool) :
    modeConsistent (copyStep cok fs src dst).1 m = true := by
  unfold copyStep modeConsistent
  split
  · split <;> simp
  · simp

theorem modeConsistent_copy (cok : String → Bool) (fs : FS) :
    modeConsistent (copy_required_files cok fs).1 (has_uv_project fs) = true := by
  unfold copy_required_files
  rw [modeConsistent_append, modeConsistent_append]
  rw [modeConsistent_copyStep, modeConsistent_copyStep]
  simp [modeConsistent]

theorem modeConsistent_guard (w : World) :
    modeConsistent (check_git_status w).1 (has_uv_project w.fs) = true := by
  unfold check_git_status
  cases w.gitStatus <;> cases hm : has_uv_project w.fs <;>
    simp only [hm] <;> (repeat' split) <;> simp [modeConsistent]

theorem modeConsistent_validate (w : World) :
    modeConsistent (validate_mkdocs_config w).1 (has_uv_project w.fs) = true := by
  unfold validate_mkdocs_config
  cases hm : has_uv_project w.fs <;>
    simp only [hm] <;> (repeat' split) <;> simp [modeConsistent]

theorem modeConsistent_deploy (w : World) :
    modeConsistent (deploy_docs w).1 (has_uv_project w.fs) = true := by
  unfold deploy_docs
  dsimp only
  rw [has_uv_project_copy]
  have hcopy := modeConsistent_copy w.copyOk w.fs
  have hrun := modeConsistent_run_mkdocs (has_uv_project w.fs)
    (deployArgs (has_uv_project w.fs)) w.publishResult
  (repeat' split) <;> simp_all [modeConsistent, modeConsistent_append]

theorem modeConsistent_serve (w : World) :
    modeConsistent (serve_docs w).1 (has_uv_project w.fs) = true := by
  unfold serve_docs
  dsimp only
  have hrun := modeConsistent_run_mkdocs (has_uv_project w.fs)
    ["serve", "--config-file", configArg (has_uv_project w.fs)] w.serveResult
  split <;> simp_all [modeConsistent, modeConsistent_append]

theorem modeConsistent_build (w : World) :
    modeConsistent (build_docs w).1 (has_uv_project w.fs) = true := by
  unfold build_docs
  dsimp only
  have hfs := has_uv_project_copy w.copyOk w.fs
  have hcopy := modeConsistent_copy w.copyOk w.fs
  have hval := modeConsistent_validate { w with fs := (copy_required_files w.copyOk w.fs).2 }
  simp only [hfs] at hval ⊢
  have hrun := modeConsistent_run_mkdocs (has_uv_project w.fs)
    ["build", "--config-file", configArg (has_uv_project w.fs)] w.buildResult
  (repeat' split) <;> simp_all [modeConsistent, modeConsistent_append]

theorem modeConsistent_thenDo {a : List Event × Ctl} {k : Unit → List Event × Ctl} {m : Bool}
    (ha : modeConsistent a.1 m = true) (hk : modeConsistent (k ()).1 m = true) :
    modeConsistent (thenDo a k).1 m = true := by
  unfold thenDo
  split <;> simp_all [modeConsistent_append]

/-! ### Further trace facts about individual components -/

theorem noBuilderInvocation_guard (w : World) :
    noBuilderInvocation (check_git_status w).1 = true := by
  unfold check_git_status
  cases w.gitStatus <;> cases hm : has_uv_project w.fs <;>
    simp only [hm] <;> (repeat' split) <;>
    simp [noBuilderInvocation, Event.isBuilderInvocation]

theorem noBuilderInvocation_copyStep (cok : String → Bool) (fs : FS) (src dst : String) :
    noBuilderInvocation (copyStep cok fs src dst).1 = true := by
  unfold copyStep
  (repeat' split) <;> simp [noBuilderInvocation, Event.isBuilderInvocation]

theorem noBuilderInvocation_copy (cok : String → Bool) (fs : FS) :
    noBuilderInvocation (copy_required_files cok fs).1 = true := by
  unfold copy_required_files
  dsimp only
  rw [noBuilderInvocation_append, noBuilderInvocation_append]
  rw [noBuilderInvocation_copyStep, noBuilderInvocation_copyStep]
  simp [noBuilderInvocation, Event.isBuilderInvocation]

theorem validate_trace_starts (w : World) :
    Event.info "Validating MkDocs configuration..." ∈ (validate_mkdocs_config w).1 := by
  unfold validate_mkdocs_config
  dsimp only
  (repeat' split) <;> simp

theorem thenDo_stop {r : List Event × Ctl} {k : Unit → List Event × Ctl}
    {c : Ctl} (h : r.2 = c) (hc : c ≠ Ctl.ok) : thenDo r k = (r.1, c) := by
  unfold thenDo
  rw [h]
  match c, hc with
  | Ctl.exit n, _ => rfl
  | Ctl.raise e, _ => rfl

theorem thenDo_ok {r : List Event × Ctl} {k : Unit → List Event × Ctl}
    (h : r.2 = Ctl.ok) : thenDo r k = (r.1 ++ (k ()).1, (k ()).2) := by
  unfold thenDo
  rw [h]

theorem thenDo_mem_left {r : List Event × Ctl} {k : Unit → List Event × Ctl}
    {e : Event} (h : e ∈ r.1) : e ∈ (thenDo r k).1 := by
  unfold thenDo
  split <;> simp [h]

theorem noPublish_of_noBuilder {evs : List Event}
    (h : noBuilderInvocation evs = true) : noPublishInvocation evs = true := by
  unfold noBuilderInvocation at h
  unfold noPublishInvocation
  rw [List.all_eq_true] at h ⊢
  intro e he
  have hb := h e he
  cases e <;> simp_all [Event.isBuilderInvocation, Event.isPublishInvocation]

/-! ### Git Guard behavior -/

theorem guard_cancel (w : World) (out : String) (hst : w.gitStatus = some out)
    (hdirty : pyStrip out ≠ "") (hresp : pyLower w.promptResponse ≠ "y") :
    (check_git_status w).2 = Ctl.exit 0
    ∧ Event.info "Deployment cancelled." ∈ (check_git_status w).1 := by
  unfold check_git_status
  rw [hst]
  dsimp only
  rw [if_neg hdirty, if_neg hresp]
  cases has_uv_project w.fs <;> simp

theorem guard_proceed (w : World) (out : String) (hst : w.gitStatus = some out)
    (hresp : pyLower w.promptResponse = "y") :
    (check_git_status w).2 = Ctl.ok := by
  unfold check_git_status
  rw [hst]
  dsimp only
  by_cases hdirty : pyStrip out = ""
  · rw [if_pos hdirty]
  · rw [if_neg hdirty, if_pos hresp]

/-! ### Config Validator behavior -/

theorem validate_missing (w : World)
    (hcfg : FS.existsFile w.fs (configPath (has_uv_project w.fs)) = false) :
    validate_mkdocs_config w
      = ([Event.info "Validating MkDocs configuration...",
          Event.modeQuery (has_uv_project w.fs),
          Event.err ("mkdocs.yml not found at " ++ configPath (has_uv_project w.fs))],
         Ctl.exit 1) := by
  unfold validate_mkdocs_config
  dsimp only
  rw [hcfg]
  simp

/-! ### Dispatch equations of the entry point -/

theorem toolcheck_false (w : World) (htool : (w.mkdocsOnPath || has_uv_project w.fs) = true) :
    (!w.mkdocsOnPath && !has_uv_project w.fs) = false := by
  cases hw : w.mkdocsOnPath <;> simp_all

theorem main_deploy_eq (w : World)
    (htool : (w.mkdocsOnPath || has_uv_project w.fs) = true) :
    main w (some "deploy")
      = ([Event.info "AutoMobile Documentation Deployment",
          Event.info "========================================"]
          ++ (if w.mkdocsOnPath then [] else [Event.modeQuery (has_uv_project w.fs)])
          ++ [Event.info "Deploying documentation to GitHub Pages..."]
          ++ (thenDo (check_git_status w) (fun _ =>
                thenDo (validate_mkdocs_config w) (fun _ => deploy_docs w))).1,
         (thenDo (check_git_status w) (fun _ =>
            thenDo (validate_mkdocs_config w) (fun _ => deploy_docs w))).2) := by
  have htool' := toolcheck_false w htool
  unfold main
  rw [show parseArg (some "deploy") = some "deploy" from rfl]
  dsimp only
  rw [htool']
  simp

theorem main_build_eq (w : World)
    (htool : (w.mkdocsOnPath || has_uv_project w.fs) = true) :
    main w (some "build")
      = ([Event.info "AutoMobile Documentation Deployment",
          Event.info "========================================"]
          ++ (if w.mkdocsOnPath then [] else [Event.modeQuery (has_uv_project w.fs)])
          ++ (build_docs w).1,
         (build_docs w).2) := by
  have htool' := toolcheck_false w htool
  unfold main
  rw [show parseArg (some "build") = some "build" from rfl]
  dsimp only
  rw [htool']
  simp

theorem main_serve_eq (w : World)
    (htool : (w.mkdocsOnPath || has_uv_project w.fs) = true) :
    main w (some "serve")
      = ([Event.info "AutoMobile Documentation Deployment",
          Event.info "========================================"]
          ++ (if w.mkdocsOnPath then [] else [Event.modeQuery (has_uv_project w.fs)])
          ++ [Event.info "Starting local documentation server for preview..."]
          ++ (serve_docs w).1,
         (serve_docs w).2) := by
  have htool' := toolcheck_false w htool
  unfold main
  rw [show parseArg (some "serve") = some "serve" from rfl]
  dsimp only
  rw [htool']
  simp

/-! ### Build workflow under a missing configuration file -/

theorem build_config_missing (w : World)
    (hcfg : FS.existsFile w.fs (configPath (has_uv_project w.fs)) = false) :
    (build_docs w).2 = Ctl.exit 1
    ∧ Event.err ("mkdocs.yml not found at " ++ configPath (has_uv_project w.fs))
        ∈ (build_docs w).1
    ∧ noBuilderInvocation (build_docs w).1 = true := by
  have hfs1 : has_uv_project ((copy_required_files w.copyOk w.fs).2) = has_uv_project w.fs :=
    has_uv_project_copy _ _
  have hcfg1 : FS.existsFile ((copy_required_files w.copyOk w.fs).2)
      (configPath (has_uv_project w.fs)) = false := by
    have hne := config_ne_dst (has_uv_project w.fs) (has_uv_project w.fs)
    unfold FS.existsFile at hcfg ⊢
    rw [copy_required_files_apply_ne _ _ hne.1 hne.2]
    exact hcfg
  have hval := validate_missing { w with fs := (copy_required_files w.copyOk w.fs).2 }
    (by dsimp only; rw [hfs1]; exact hcfg1)
  unfold build_docs
  dsimp only
  rw [hval]
  dsimp only
  simp only [hfs1]
  have hcopy := noBuilderInvocation_copy w.copyOk w.fs
  refine ⟨by trivial, by simp, ?_⟩
  simp_all [noBuilderInvocation, List.all_append, Event.isBuilderInvocation]

/-! ### Worlds exercising particular branches -/

/-- Remote origin address in SSH form. -/
def wSshRemote : World := { baseWorld with remoteUrl := some "git@github.com:alice/proj.git" }

/-- Remote origin address on a non-GitHub host. -/
def wNonGithub : World :=
  { baseWorld with remoteUrl := some "https://gitlab.example.com/x/y.git" }

/-- Dirty working tree and a non-affirmative answer to the prompt. -/
def wDirty : World := { baseWorld with gitStatus := some " M x.py\n", promptResponse := "n" }

/-- Dirty working tree and an affirmative answer to the prompt. -/
def wDirtyYes : World := { baseWorld with gitStatus := some " M x.py\n", promptResponse := "Y" }

/-- World whose filesystem holds no files at all: in particular no
configuration file at either expected path. -/
def wNoCfg : World := { baseWorld with fs := fun _ => none }

/-- Failing git status query. -/
def wGitFail : World := { baseWorld with gitStatus := none }

/-- Failing publish invocation. -/
def wPubFail : World := { baseWorld with publishResult := ProcResult.failure }

/-- Builder fails (non-interrupt) during serve. -/
def wServeFail : World := { baseWorld with serveResult := ProcResult.failure }

/-- Remote address whose segment after the host marker has no separator. -/
def wBadRemote : World := { baseWorld with remoteUrl := some "https://github.com/bob" }

/-- Every copy attempt fails with an I/O error. -/
def wCopyFail : World := { baseWorld with copyOk := fun _ => false }

/-- Builder not on the PATH and no marker files at all. -/
def wNoTool : World := { baseWorld with mkdocsOnPath := false, fs := fun _ => none }

/-! ### Outcome reduction lemmas for the Command Runner -/

theorem run_mkdocs_success (m : Bool) (a : List String) :
    (run_mkdocs m a ProcResult.success).2 = Ctl.ok := rfl

theorem run_mkdocs_failure (m : Bool) (a : List String) :
    (run_mkdocs m a ProcResult.failure).2 = Ctl.raise Exn.calledProcessError := rfl

theorem run_mkdocs_interrupt (m : Bool) (a : List String) :
    (run_mkdocs m a ProcResult.interrupt).2 = Ctl.raise Exn.keyboardInterrupt := rfl

theorem validate_ok (w : World)
    (hex : FS.existsFile w.fs (configPath (has_uv_project w.fs)) = true)
    (hok : w.validateBuildOk = true) :
    (validate_mkdocs_config w).2 = Ctl.ok := by
  unfold validate_mkdocs_config
  dsimp only
  rw [if_pos hex, if_pos hok]

/-! ### Claim theorems -/

/-- C7: the Environment Detector returns true exactly when both marker
files (the project manifest `pyproject.toml` and the lock file `uv.lock`)
exist at the fixed location next to the program; if either is absent it
returns false. -/
theorem has_uv_project_iff_markers (fs : FS) :
    (has_uv_project fs = true ↔
      (FS.existsFile fs pyprojectPath = true ∧ FS.existsFile fs uvLockPath = true))
    ∧ (has_uv_project fs = false ↔
      (FS.existsFile fs pyprojectPath = false ∨ FS.existsFile fs uvLockPath = false)) := by
  unfold has_uv_project
  constructor
  · simp
  · cases h1 : FS.existsFile fs pyprojectPath <;>
      cases h2 : FS.existsFile fs uvLockPath <;> simp

theorem has_uv_project_iff_markers_witness :
    (has_uv_project sampleUvFS = true ↔
      (FS.existsFile sampleUvFS pyprojectPath = true
        ∧ FS.existsFile sampleUvFS uvLockPath = true))
    ∧ (has_uv_project sampleUvFS = false ↔
      (FS.existsFile sampleUvFS pyprojectPath = false
        ∨ FS.existsFile sampleUvFS uvLockPath = false)) :=
  has_uv_project_iff_markers sampleUvFS

/-- C10: the help subcommand prints the banner and the usage text and
returns with a successful outcome for every world, in particular when the
builder is not invocable and no isolated environment is present; the
external-tooling availability check (and everything else) is skipped, as
the full trace shows. -/
theorem help_skips_tooling_check (w : World) :
    (main w (some "help")).2 = Ctl.ok
    ∧ main w (some "help")
        = ([Event.info "AutoMobile Documentation Deployment",
            Event.info "========================================",
            Event.outLine "usage: deploy_pages.py [-h] [command]"], Ctl.ok) :=
  ⟨rfl, rfl⟩

theorem help_skips_tooling_check_witness :
    (main wNoTool (some "help")).2 = Ctl.ok
    ∧ main wNoTool (some "help")
        = ([Event.info "AutoMobile Documentation Deployment",
            Event.info "========================================",
            Event.outLine "usage: deploy_pages.py [-h] [command]"], Ctl.ok) :=
  help_skips_tooling_check wNoTool

/-- C9: with no positional argument the selected workflow is deploy (the
parser yields deploy and the whole run is identical to an explicit deploy
run); an argument outside the enumerated choices is rejected with exit
code 2 before any workflow runs, with no file copies, directory changes
or external-process invocations. -/
theorem cli_default_and_reject (w : World) (s : String)
    (h : commandChoices.contains s = false) :
    parseArg none = some "deploy"
    ∧ main w none = main w (some "deploy")
    ∧ (main w (some s)).2 = Ctl.exit 2
    ∧ noSideEffects (main w (some s)).1 = true := by
  have hm : s ∉ commandChoices := by simpa using h
  refine ⟨rfl, rfl, ?_, ?_⟩ <;>
    · unfold main parseArg
      simp [hm, noSideEffects, Event.isSideEffect]

theorem cli_default_and_reject_witness :
    (main baseWorld (some "frobnicate")).2 = Ctl.exit 2
    ∧ noSideEffects (main baseWorld (some "frobnicate")).1 = true :=
  ⟨(cli_default_and_reject baseWorld "frobnicate" (by decide)).2.2.1,
   (cli_default_and_reject baseWorld "frobnicate" (by decide)).2.2.2⟩

/-- C3: every environment-mode computation performed anywhere during one
program invocation (the `modeQuery` events of the trace) yields the same
value, namely the mode determined by the marker files of the invocation's
filesystem; the mode is a pure function of that filesystem, and the
file-staging writes never touch the marker files, so the value cannot
change during the run. -/
theorem environment_mode_consistent (w : World) (arg : Option String) :
    modeConsistent (main w arg).1 (has_uv_project w.fs) = true := by
  unfold main
  cases hp : parseArg arg with
  | none => simp [modeConsistent]
  | some cmd =>
    dsimp only
    have hchain : modeConsistent (thenDo (check_git_status w) (fun _ =>
        thenDo (validate_mkdocs_config w) (fun _ => deploy_docs w))).1
        (has_uv_project w.fs) = true :=
      modeConsistent_thenDo (modeConsistent_guard w)
        (modeConsistent_thenDo (modeConsistent_validate w) (modeConsistent_deploy w))
    have hs := modeConsistent_serve w
    have hb := modeConsistent_build w
    (repeat' split) <;> simp_all [modeConsistent, modeConsistent_append]

theorem environment_mode_consistent_witness :
    modeConsistent (main wNoCfg (some "build")).1 (has_uv_project wNoCfg.fs) = true :=
  environment_mode_consistent wNoCfg (some "build")

/-- C1: evaluation of the URL reporting step of the deploy workflow on
the three remote addresses of the claim.  The https form produces the
expected URL and a non-GitHub remote produces no URL line without failing
the workflow, but the SSH form `git@github.com:alice/proj.git` produces no
URL at all (instead of `https://alice.github.io/proj/`): the code requires
the substring `github.com/`, which SSH-style addresses never contain, so
the colon normalisation the source comments announce for SSH URLs is
unreachable. -/
theorem url_derivation_ssh_gap :
    deriveGithubPagesUrl "git@github.com:alice/proj.git" = Except.ok none
    ∧ deriveGithubPagesUrl "https://github.com/bob/site.git"
        = Except.ok (some "https://bob.github.io/site/")
    ∧ deriveGithubPagesUrl "https://gitlab.example.com/x/y.git" = Except.ok none
    ∧ ((main wSshRemote (some "deploy")).2 = Ctl.ok
        ∧ noUrlLine (main wSshRemote (some "deploy")).1 = true)
    ∧ ((main wNonGithub (some "deploy")).2 = Ctl.ok
        ∧ noUrlLine (main wNonGithub (some "deploy")).1 = true) :=
  ⟨rfl, rfl, rfl, ⟨by decide, by decide⟩, ⟨by decide, by decide⟩⟩

/-- C5: in the Git Guard of the deploy workflow, when the status query
succeeds with output containing a non-blank line (equivalently, a
non-whitespace character, the line separator being whitespace), a
non-affirmative answer to the prompt makes the program exit with status 0
after printing the cancellation message, with no publish invocation in
the whole run; an affirmative answer (y, case-insensitively) lets the
workflow proceed to configuration validation. -/
theorem git_guard_cancel_or_proceed (w : World) (out : String)
    (htool : (w.mkdocsOnPath || has_uv_project w.fs) = true)
    (hst : w.gitStatus = some out)
    (hnb : out.data.any (fun c => !isPySpace c) = true) :
    (pyLower w.promptResponse ≠ "y" →
      (main w (some "deploy")).2 = Ctl.exit 0
      ∧ Event.info "Deployment cancelled." ∈ (main w (some "deploy")).1
      ∧ noPublishInvocation (main w (some "deploy")).1 = true)
    ∧ (pyLower w.promptResponse = "y" →
      Event.info "Validating MkDocs configuration..." ∈ (main w (some "deploy")).1) := by
  have hdirty := pyStrip_ne_empty hnb
  rw [main_deploy_eq w htool]
  constructor
  · intro hresp
    obtain ⟨hc2, hcmem⟩ := guard_cancel w out hst hdirty hresp
    rw [thenDo_stop hc2 (by decide)]
    refine ⟨rfl, by simp [hcmem], ?_⟩
    have hg := noPublish_of_noBuilder (noBuilderInvocation_guard w)
    cases hw : w.mkdocsOnPath <;>
      simp_all [noPublishInvocation, List.all_append, Event.isPublishInvocation]
  · intro hresp
    have hok := guard_proceed w out hst hresp
    rw [thenDo_ok hok]
    have hval : Event.info "Validating MkDocs configuration..."
        ∈ (thenDo (validate_mkdocs_config w) (fun _ => deploy_docs w)).1 :=
      thenDo_mem_left (validate_trace_starts w)
    simp [hval]

theorem git_guard_cancel_or_proceed_witness :
    ((main wDirty (some "deploy")).2 = Ctl.exit 0
      ∧ Event.info "Deployment cancelled." ∈ (main wDirty (some "deploy")).1
      ∧ noPublishInvocation (main wDirty (some "deploy")).1 = true)
    ∧ Event.info "Validating MkDocs configuration..." ∈ (main wDirtyYes (some "deploy")).1 :=
  ⟨(git_guard_cancel_or_proceed wDirty " M x.py\n" (by decide) rfl (by decide)).1 (by decide),
   (git_guard_cancel_or_proceed wDirtyYes " M x.py\n" (by decide) rfl (by decide)).2 (by decide)⟩

/-- C6: when the configuration file does not exist at the path expected
for the detected environment mode, the program (reaching the Config
Validator with the guard passed, in the deploy workflow, or through the
build workflow) prints the labeled error and terminates with exit status
1, and no invocation of the external builder occurs anywhere in the run. -/
theorem config_missing_exits_before_builder (w : World)
    (htool : (w.mkdocsOnPath || has_uv_project w.fs) = true)
    (hguard : (check_git_status w).2 = Ctl.ok)
    (hcfg : FS.existsFile w.fs (configPath (has_uv_project w.fs)) = false) :
    ((main w (some "deploy")).2 = Ctl.exit 1
      ∧ Event.err ("mkdocs.yml not found at " ++ configPath (has_uv_project w.fs))
          ∈ (main w (some "deploy")).1
      ∧ noBuilderInvocation (main w (some "deploy")).1 = true)
    ∧ ((main w (some "build")).2 = Ctl.exit 1
      ∧ Event.err ("mkdocs.yml not found at " ++ configPath (has_uv_project w.fs))
          ∈ (main w (some "build")).1
      ∧ noBuilderInvocation (main w (some "build")).1 = true) := by
  have hval := validate_missing w hcfg
  constructor
  · rw [main_deploy_eq w htool]
    rw [thenDo_ok hguard]
    have hstop : (validate_mkdocs_config w).2 = Ctl.exit 1 := by rw [hval]
    rw [thenDo_stop hstop (by decide)]
    rw [hval]
    have hg := noBuilderInvocation_guard w
    refine ⟨rfl, by simp, ?_⟩
    cases hw : w.mkdocsOnPath <;>
      simp_all [noBuilderInvocation, List.all_append, Event.isBuilderInvocation]
  · rw [main_build_eq w htool]
    obtain ⟨hb2, hbmem, hbnb⟩ := build_config_missing w hcfg
    refine ⟨hb2, by simp [hbmem], ?_⟩
    cases hw : w.mkdocsOnPath <;>
      simp_all [noBuilderInvocation, List.all_append, Event.isBuilderInvocation]

/-! ### File staging: idempotence and trace facts -/

theorem copyStep_missing_trace (cok : String → Bool) (fs : FS) (src dst : String)
    (h : FS.existsFile fs src = false) :
    (copyStep cok fs src dst).1 = [Event.warn ("Source file not found: " ++ src)] := by
  unfold copyStep
  rw [h]
  simp

theorem copyStep_failed_trace (cok : String → Bool) (fs : FS) (src dst : String)
    (hex : FS.existsFile fs src = true) (hco : cok src = false) :
    (copyStep cok fs src dst).1 = [Event.warn ("Failed to copy " ++ src)] := by
  unfold copyStep
  rw [hex, hco]
  simp

theorem copy_required_files_snd (cok : String → Bool) (fs : FS) :
    (copy_required_files cok fs).2
      = (copyStep cok (copyStep cok fs (srcChangelog (has_uv_project fs))
          (dstChangelog (has_uv_project fs))).2 (srcContrib (has_uv_project fs))
          (dstContrib (has_uv_project fs))).2 := rfl

theorem copy_required_files_fst (cok : String → Bool) (fs : FS) :
    (copy_required_files cok fs).1
      = [Event.info "Copying required files to docs directory...",
         Event.modeQuery (has_uv_project fs)]
        ++ (copyStep cok fs (srcChangelog (has_uv_project fs))
            (dstChangelog (has_uv_project fs))).1
        ++ (copyStep cok (copyStep cok fs (srcChangelog (has_uv_project fs))
            (dstChangelog (has_uv_project fs))).2 (srcContrib (has_uv_project fs))
            (dstContrib (has_uv_project fs))).1 := rfl

theorem stage_pair_idem (cok : String → Bool) (fs : FS) (s1 d1 s2 d2 : String)
    (h11 : s1 ≠ d1) (h12 : s1 ≠ d2) (h22 : s2 ≠ d2) (hdd : d1 ≠ d2) :
    (copyStep cok (copyStep cok (copyStep cok (copyStep cok fs s1 d1).2 s2 d2).2
      s1 d1).2 s2 d2).2
      = (copyStep cok (copyStep cok fs s1 d1).2 s2 d2).2 := by
  set fsA := (copyStep cok fs s1 d1).2 with hA
  set fsB := (copyStep cok fsA s2 d2).2 with hB
  have hBs1 : fsB s1 = fs s1 := by
    rw [hB, copyStep_apply_ne cok fsA s2 d2 h12, hA, copyStep_apply_ne cok fs s1 d1 h11]
  have hstep1 : (copyStep cok fsB s1 d1).2 = fsB := by
    by_cases hE1 : FS.existsFile fs s1 = true
    · by_cases hC1 : cok s1 = true
      · have hAd1 : fsA d1 = some ((fs s1).getD "") := by
          rw [hA, copyStep_write cok fs s1 d1 hE1 hC1]
          exact FS.write_apply_self fs d1 _
        have hBd1 : fsB d1 = some ((fs s1).getD "") := by
          rw [hB, copyStep_apply_ne cok fsA s2 d2 hdd]
          exact hAd1
        have hEB1 : FS.existsFile fsB s1 = true := by
          unfold FS.existsFile at hE1 ⊢
          rw [hBs1]
          exact hE1
        rw [copyStep_write cok fsB s1 d1 hEB1 hC1, hBs1]
        exact FS.write_cancel hBd1
      · exact copyStep_noop cok fsB s1 d1 (Or.inr (by simpa using hC1))
    · have hEB1 : FS.existsFile fsB s1 = false := by
        unfold FS.existsFile at hE1 ⊢
        rw [hBs1]
        simpa using hE1
      exact copyStep_noop cok fsB s1 d1 (Or.inl hEB1)
  rw [hstep1]
  have hBs2 : fsB s2 = fsA s2 := by
    rw [hB, copyStep_apply_ne cok fsA s2 d2 h22]
  by_cases hE2 : FS.existsFile fsA s2 = true
  · by_cases hC2 : cok s2 = true
    · have hBd2 : fsB d2 = some ((fsA s2).getD "") := by
        rw [hB, copyStep_write cok fsA s2 d2 hE2 hC2]
        exact FS.write_apply_self fsA d2 _
      have hEB2 : FS.existsFile fsB s2 = true := by
        unfold FS.existsFile at hE2 ⊢
        rw [hBs2]
        exact hE2
      rw [copyStep_write cok fsB s2 d2 hEB2 hC2, hBs2]
      exact FS.write_cancel hBd2
    · exact copyStep_noop cok fsB s2 d2 (Or.inr (by simpa using hC2))
  · have hEB2 : FS.existsFile fsB s2 = false := by
      unfold FS.existsFile at hE2 ⊢
      rw [hBs2]
      simpa using hE2
    exact copyStep_noop cok fsB s2 d2 (Or.inl hEB2)

theorem copy_required_files_idem (cok : String → Bool) (fs : FS) :
    (copy_required_files cok ((copy_required_files cok fs).2)).2
      = (copy_required_files cok fs).2 := by
  obtain ⟨h11, h12, h21, h22, hdd⟩ := src_ne_dst (has_uv_project fs)
  have hm := has_uv_project_copy cok fs
  rw [copy_required_files_snd cok ((copy_required_files cok fs).2), hm]
  rw [copy_required_files_snd cok fs]
  exact stage_pair_idem cok fs _ _ _ _ h11 h12 h22 hdd

/-! ### Characterization of the URL-step exception -/

/-- Exact condition under which the URL reporting step raises: the
.git-stripped address contains the host marker followed by a slash, but
the segment after it (colons normalised to slashes) contains no slash to
split into account and repository name. -/
def urlRaisesCond (u : String) : Bool :=
  (splitFirst ("github.com".data) u.data).isSome
  && (splitFirst ("github.com/".data) (stripDotGit u.data)).isSome
  && (splitFirst ("/".data) (colonToSlash (pyIndex1 ("github.com/".data) (stripDotGit u.data)))).isNone

theorem deriveUrl_error_of_cond {raw : String} (hc : urlRaisesCond raw = true) :
    deriveGithubPagesUrl raw = Except.error Exn.valueError := by
  unfold urlRaisesCond at hc
  rw [Bool.and_eq_true, Bool.and_eq_true] at hc
  obtain ⟨⟨h1, h2⟩, h3⟩ := hc
  unfold deriveGithubPagesUrl
  dsimp only
  rw [if_pos h1, if_pos h2, Option.isNone_iff_eq_none.mp h3]

theorem deriveUrl_ok_of_not_cond {raw : String} (hc : urlRaisesCond raw = false) :
    ∃ r, deriveGithubPagesUrl raw = Except.ok r := by
  unfold deriveGithubPagesUrl
  dsimp only
  cases h1 : splitFirst ("github.com".data) raw.data with
  | none => exact ⟨none, by simp [h1]⟩
  | some p1 =>
    cases h2 : splitFirst ("github.com/".data) (stripDotGit raw.data) with
    | none => exact ⟨none, by simp [h1, h2]⟩
    | some p2 =>
      cases h3 : splitFirst ("/".data)
          (colonToSlash (pyIndex1 ("github.com/".data) (stripDotGit raw.data))) with
      | none =>
        exfalso
        unfold urlRaisesCond at hc
        simp [h1, h2, h3] at hc
      | some p3 =>
        refine ⟨some ("https://" ++ String.mk p3.1 ++ ".github.io/" ++ String.mk p3.2 ++ "/"), ?_⟩
        simp [h1, h2, h3]

theorem deploy_ok_of_derive_ok {w : World} {raw : String} {r : Option String}
    (hpub : w.publishResult = ProcResult.success) (hr : w.remoteUrl = some raw)
    (hd : deriveGithubPagesUrl (pyStrip raw) = Except.ok r) :
    (deploy_docs w).2 = Ctl.ok ∧ Event.info delayNotice ∈ (deploy_docs w).1 := by
  unfold deploy_docs
  dsimp only
  simp only [hpub, run_mkdocs_success, hr]
  rw [hd]
  cases r <;> simp

/-- C4 is refuted by a GitHub remote address whose path has a single
component: `https://github.com/bob` reaches the account/repository unpack
with no separator, raising a `ValueError` that no handler catches; the
deploy workflow then neither prints the delay notice nor exits 0. -/
theorem url_parse_value_error :
    deriveGithubPagesUrl "https://github.com/bob" = Except.error Exn.valueError
    ∧ (main wBadRemote (some "deploy")).2 = Ctl.raise Exn.valueError
    ∧ (main wBadRemote (some "deploy")).1.contains (Event.info delayNotice) = false :=
  ⟨rfl, by decide, by decide⟩

/-- C4 (amended): for every remote origin address, the URL reporting step
raises exactly when the .git-stripped address contains `github.com/` and
the segment after it (colons normalised) contains no slash; for every
other address a parsing failure results only in the URL line being
omitted, the step returns normally, and the deploy workflow completes
with the delay notice, as it also does when the remote-address query
itself fails. -/
theorem url_step_raise_characterization (w : World) (raw : String) :
    (urlRaisesCond raw = true → deriveGithubPagesUrl raw = Except.error Exn.valueError)
    ∧ (urlRaisesCond raw = false → ∃ r, deriveGithubPagesUrl raw = Except.ok r)
    ∧ (w.remoteUrl = some raw → w.publishResult = ProcResult.success →
      urlRaisesCond (pyStrip raw) = false →
      (deploy_docs w).2 = Ctl.ok ∧ Event.info delayNotice ∈ (deploy_docs w).1) := by
  refine ⟨fun hc => deriveUrl_error_of_cond hc, fun hc => deriveUrl_ok_of_not_cond hc, ?_⟩
  intro hr hpub hc
  obtain ⟨r, hd⟩ := deriveUrl_ok_of_not_cond hc
  exact deploy_ok_of_derive_ok hpub hr hd

theorem url_step_raise_characterization_witness :
    deriveGithubPagesUrl "http://github.com/solo" = Except.error Exn.valueError
    ∧ ((deploy_docs baseWorld).2 = Ctl.ok
      ∧ Event.info delayNotice ∈ (deploy_docs baseWorld).1) :=
  ⟨(url_step_raise_characterization baseWorld "http://github.com/solo").1 (by decide),
   (url_step_raise_characterization baseWorld "https://github.com/bob/site.git").2.2
     rfl rfl (by decide)⟩

/-- C2 is refuted by the serve workflow: a non-interrupt failure of the
builder during serve is not caught at the call site (only
`KeyboardInterrupt` is), so the `CalledProcessError` propagates uncaught
out of the workflow and out of the entry point. -/
theorem serve_builder_failure_uncaught :
    (main wServeFail (some "serve")).2 = Ctl.raise Exn.calledProcessError
    ∧ (serve_docs wServeFail).2 = Ctl.raise Exn.calledProcessError :=
  ⟨by decide, by decide⟩

/-- C2 (amended): every external-process failure is caught at its call
site and converted to a diagnostic category — fatal labeled error with
exit status 1 (validation build, publish, plain build), labeled warning
with continuation (git status query), or silent continuation (remote
address query) — and a serve interrupt is converted to a clean stop,
except that a non-interrupt builder failure during the serve workflow
propagates as an uncaught exception. -/
theorem external_process_failure_handling (w : World) :
    (w.gitStatus = none →
      (check_git_status w).2 = Ctl.ok
      ∧ Event.warn "Could not check git status" ∈ (check_git_status w).1)
    ∧ (FS.existsFile w.fs (configPath (has_uv_project w.fs)) = true →
      w.validateBuildOk = false →
      (validate_mkdocs_config w).2 = Ctl.exit 1
      ∧ Event.err "MkDocs build failed. Please fix configuration errors."
          ∈ (validate_mkdocs_config w).1)
    ∧ (w.publishResult = ProcResult.failure →
      (deploy_docs w).2 = Ctl.exit 1
      ∧ Event.err "Deployment failed!" ∈ (deploy_docs w).1)
    ∧ (w.buildResult = ProcResult.failure →
      FS.existsFile w.fs (configPath (has_uv_project w.fs)) = true →
      w.validateBuildOk = true →
      (build_docs w).2 = Ctl.exit 1 ∧ Event.err "Build failed!" ∈ (build_docs w).1)
    ∧ (w.serveResult = ProcResult.interrupt →
      (serve_docs w).2 = Ctl.ok ∧ Event.info "Server stopped." ∈ (serve_docs w).1)
    ∧ (w.serveResult = ProcResult.failure →
      (serve_docs w).2 = Ctl.raise Exn.calledProcessError)
    ∧ (w.remoteUrl = none → w.publishResult = ProcResult.success →
      (deploy_docs w).2 = Ctl.ok ∧ Event.info delayNotice ∈ (deploy_docs w).1) := by
  refine ⟨?_, ?_, ?_, ?_, ?_, ?_, ?_⟩
  · intro h
    unfold check_git_status
    rw [h]
    dsimp only
    cases has_uv_project w.fs <;> simp
  · intro hex hbad
    unfold validate_mkdocs_config
    dsimp only
    rw [if_pos hex, hbad]
    simp
  · intro hpub
    unfold deploy_docs
    dsimp only
    simp only [hpub, run_mkdocs_failure]
    simp
  · intro hbuild hex hok
    have hfs1 : has_uv_project ((copy_required_files w.copyOk w.fs).2) = has_uv_project w.fs :=
      has_uv_project_copy _ _
    have hex1 : FS.existsFile ((copy_required_files w.copyOk w.fs).2)
        (configPath (has_uv_project w.fs)) = true := by
      have hne := config_ne_dst (has_uv_project w.fs) (has_uv_project w.fs)
      unfold FS.existsFile at hex ⊢
      rw [copy_required_files_apply_ne _ _ hne.1 hne.2]
      exact hex
    have hv2 : (validate_mkdocs_config
        { w with fs := (copy_required_files w.copyOk w.fs).2 }).2 = Ctl.ok := by
      apply validate_ok
      · dsimp only
        rw [hfs1]
        exact hex1
      · exact hok
    unfold build_docs
    dsimp only
    rw [hv2]
    dsimp only
    simp only [hbuild, run_mkdocs_failure]
    simp
  · intro hint
    unfold serve_docs
    dsimp only
    simp only [hint, run_mkdocs_interrupt]
    simp
  · intro hfail
    unfold serve_docs
    dsimp only
    simp only [hfail, run_mkdocs_failure]
  · intro hr hpub
    unfold deploy_docs
    dsimp only
    simp only [hpub, run_mkdocs_success, hr]
    simp

theorem external_process_failure_handling_witness :
    ((check_git_status wGitFail).2 = Ctl.ok
      ∧ Event.warn "Could not check git status" ∈ (check_git_status wGitFail).1)
    ∧ ((serve_docs baseWorld).2 = Ctl.ok
      ∧ Event.info "Server stopped." ∈ (serve_docs baseWorld).1)
    ∧ ((deploy_docs wPubFail).2 = Ctl.exit 1
      ∧ Event.err "Deployment failed!" ∈ (deploy_docs wPubFail).1) :=
  ⟨(external_process_failure_handling wGitFail).1 rfl,
   (external_process_failure_handling baseWorld).2.2.2.2.1 rfl,
   (external_process_failure_handling wPubFail).2.2.1 rfl⟩

/-- C8: File Staging is idempotent and total: running it a second time on
the filesystem produced by the first run yields the same filesystem (so
the destination contents agree between the two runs), the result type
carries no failure outcome (every copy error is caught inside the loop),
a missing source file or a failing copy produces only the labeled warning,
and the enclosing build workflow always continues past staging into
configuration validation. -/
theorem copy_required_files_idempotent_nonfatal (w : World) :
    ((copy_required_files w.copyOk ((copy_required_files w.copyOk w.fs).2)).2
      = (copy_required_files w.copyOk w.fs).2)
    ∧ (FS.existsFile w.fs (srcChangelog (has_uv_project w.fs)) = false →
      Event.warn ("Source file not found: " ++ srcChangelog (has_uv_project w.fs))
        ∈ (copy_required_files w.copyOk w.fs).1)
    ∧ (FS.existsFile w.fs (srcContrib (has_uv_project w.fs)) = false →
      Event.warn ("Source file not found: " ++ srcContrib (has_uv_project w.fs))
        ∈ (copy_required_files w.copyOk w.fs).1)
    ∧ (FS.existsFile w.fs (srcChangelog (has_uv_project w.fs)) = true →
      w.copyOk (srcChangelog (has_uv_project w.fs)) = false →
      Event.warn ("Failed to copy " ++ srcChangelog (has_uv_project w.fs))
        ∈ (copy_required_files w.copyOk w.fs).1)
    ∧ Event.info "Validating MkDocs configuration..." ∈ (build_docs w).1 := by
  obtain ⟨h11, h12, h21, h22, hdd⟩ := src_ne_dst (has_uv_project w.fs)
  refine ⟨copy_required_files_idem w.copyOk w.fs, ?_, ?_, ?_, ?_⟩
  · intro hmiss
    rw [copy_required_files_fst]
    rw [copyStep_missing_trace w.copyOk w.fs _ _ hmiss]
    simp
  · intro hmiss
    have hmiss1 : FS.existsFile
        ((copyStep w.copyOk w.fs (srcChangelog (has_uv_project w.fs))
          (dstChangelog (has_uv_project w.fs))).2) (srcContrib (has_uv_project w.fs)) = false := by
      unfold FS.existsFile at hmiss ⊢
      rw [copyStep_apply_ne w.copyOk w.fs _ _ h21]
      exact hmiss
    rw [copy_required_files_fst]
    rw [copyStep_missing_trace w.copyOk _ _ _ hmiss1]
    simp
  · intro hex hco
    rw [copy_required_files_fst]
    rw [copyStep_failed_trace w.copyOk w.fs _ _ hex hco]
    simp
  · unfold build_docs
    dsimp only
    have hval := validate_trace_starts { w with fs := (copy_required_files w.copyOk w.fs).2 }
    (repeat' split) <;> simp [hval]

theorem copy_required_files_idempotent_nonfatal_witness :
    Event.warn ("Source file not found: " ++ srcChangelog (has_uv_project wNoCfg.fs))
      ∈ (copy_required_files wNoCfg.copyOk wNoCfg.fs).1
    ∧ Event.warn ("Failed to copy " ++ srcChangelog (has_uv_project wCopyFail.fs))
      ∈ (copy_required_files wCopyFail.copyOk wCopyFail.fs).1 :=
  ⟨(copy_required_files_idempotent_nonfatal wNoCfg).2.1 (by decide),
   (copy_required_files_idempotent_nonfatal wCopyFail).2.2.2.1 (by decide) (by decide)⟩

theorem config_missing_exits_before_builder_witness :
    ((main wNoCfg (some "deploy")).2 = Ctl.exit 1
      ∧ Event.err ("mkdocs.yml not found at " ++ configPath (has_uv_project wNoCfg.fs))
          ∈ (main wNoCfg (some "deploy")).1
      ∧ noBuilderInvocation (main wNoCfg (some "deploy")).1 = true)
    ∧ ((main wNoCfg (some "build")).2 = Ctl.exit 1
      ∧ Event.err ("mkdocs.yml not found at " ++ configPath (has_uv_project wNoCfg.fs))
          ∈ (main wNoCfg (some "build")).1
      ∧ noBuilderInvocation (main wNoCfg (some "build")).1 = true) :=
  config_missing_exits_before_builder wNoCfg (by decide) (by decide) (by decide)

end DeployPages
